import Mathlib

/-!
Formal model of the `gfw-api` repository (modules `gfw/cdb.py` and
`gfw/truth.py`), a shallow embedding in Lean 4.

Conventions used throughout:

* Python floats are modelled by `ℚ` (all arithmetic in these modules is
  exact decimal arithmetic on small constants).
* Python ints are modelled by `ℤ`; the Python 2 integer division `h / 2`
  (floor division) is modelled by `Int.fdiv`.
* A fallible Python computation (one that can raise) is modelled by
  `Option` or `Except`: `none` / `.error` stands for a raised exception.
* Outbound I/O (App Engine `urlfetch`, the Earth Engine catalog) is
  modelled by explicit environment parameters: the outcome of an HTTP
  fetch is a `FetchOutcome` argument, the Earth Engine catalog is a
  function from collection name to the list of scenes it contains.
-/

/-! ### Kernel-computable rational arithmetic

The bundled rational operations (`Rat.add`, `Rat.mul`, `Rat.inv`, …) are
`@[irreducible]` in this toolchain, so concrete runs of the model could
not be checked by `decide`/`rfl` through them.  The definitions below
are plain `mkRat` computations, proved equal to the standard operations
once and for all; the executable model is written with these. -/

/-- Computable addition on `ℚ`, equal to `+` by `qadd_eq`. -/
def qadd (a b : ℚ) : ℚ := mkRat (a.num * b.den + b.num * a.den) (a.den * b.den)

/-- Computable multiplication on `ℚ`, equal to `*` by `qmul_eq`. -/
def qmul (a b : ℚ) : ℚ := mkRat (a.num * b.num) (a.den * b.den)

/-- Computable subtraction on `ℚ`, equal to `-` by `qsub_eq`. -/
def qsub (a b : ℚ) : ℚ := qadd a (-b)

/-- Computable inverse on `ℚ` (with `qinv 0 = 0`), equal to `⁻¹` by
`qinv_eq`. -/
def qinv (a : ℚ) : ℚ :=
  if a.num < 0 then mkRat (-(a.den : ℤ)) a.num.natAbs else mkRat a.den a.num.natAbs

/-- Computable division on `ℚ`, equal to `/` by `qdiv_eq`. -/
def qdiv (a b : ℚ) : ℚ := qmul a (qinv b)

theorem qadd_eq (a b : ℚ) : qadd a b = a + b := by
  have ha : ((a.den : ℚ)) ≠ 0 := (Nat.cast_ne_zero (R := ℚ)).2 a.den_nz
  have hb : ((b.den : ℚ)) ≠ 0 := (Nat.cast_ne_zero (R := ℚ)).2 b.den_nz
  rw [qadd, Rat.mkRat_eq_divInt, Rat.divInt_eq_div]
  push_cast
  conv_rhs => rw [← Rat.num_div_den a, ← Rat.num_div_den b]
  field_simp

theorem qmul_eq (a b : ℚ) : qmul a b = a * b := by
  rw [qmul, Rat.mkRat_eq_divInt, Rat.divInt_eq_div]
  push_cast
  conv_rhs => rw [← Rat.num_div_den a, ← Rat.num_div_den b]
  rw [div_mul_div_comm]

theorem qsub_eq (a b : ℚ) : qsub a b = a - b := by
  rw [qsub, qadd_eq, sub_eq_add_neg]

theorem qinv_eq (a : ℚ) : qinv a = a⁻¹ := by
  rw [Rat.inv_def', qinv]
  by_cases h : a.num < 0
  · rw [if_pos h, Rat.mkRat_eq_divInt,
      show ((a.num.natAbs : ℤ)) = -a.num by omega, Rat.divInt_neg, neg_neg]
  · rw [if_neg h, Rat.mkRat_eq_divInt,
      show ((a.num.natAbs : ℤ)) = a.num by omega]

theorem qdiv_eq (a b : ℚ) : qdiv a b = a / b := by
  rw [qdiv, qmul_eq, qinv_eq, div_eq_mul_inv]

/-! ### Model of Python library primitives used by `cdb.py` -/

/-- The double-quote character, written by code point to keep string
parsing code readable. -/
def qmark : Char := Char.ofNat 34

/-- The backslash character. -/
def bslash : Char := Char.ofNat 92

/-- The opening curly brace character. -/
def lbrace : Char := Char.ofNat 123

/-- The closing curly brace character. -/
def rbrace : Char := Char.ofNat 125

/-- JSON whitespace recognizer. -/
def isWs (c : Char) : Bool :=
  (c = ' ') || (c = Char.ofNat 9) || (c = Char.ofNat 10) || (c = Char.ofNat 13)

/-- Drop leading JSON whitespace. -/
def skipWs : List Char → List Char
  | [] => []
  | c :: cs => if isWs c then skipWs cs else c :: cs

/-- JSON values, the image of Python's `json.loads`. -/
inductive Json where
  | null : Json
  | bool (b : Bool) : Json
  | num (q : ℚ) : Json
  | str (s : String) : Json
  | arr (xs : List Json) : Json
  | obj (kvs : List (String × Json)) : Json

/-- Numeric value of a list of decimal digit characters. -/
def natOfDigits (ds : List Char) : ℕ :=
  ds.foldl (fun a c => a * 10 + (c.toNat - 48)) 0

/-- Parse the body of a JSON string after the opening quote, handling the
common escapes; returns the string and the remaining input. -/
def jstrBody (acc : List Char) : List Char → Option (String × List Char)
  | [] => none
  | c :: cs =>
    if c = qmark then some (String.mk acc.reverse, cs)
    else if c = bslash then
      match cs with
      | [] => none
      | e :: cs2 =>
        if e = qmark ∨ e = bslash ∨ e = '/' then jstrBody (e :: acc) cs2
        else if e = 'n' then jstrBody (Char.ofNat 10 :: acc) cs2
        else if e = 't' then jstrBody (Char.ofNat 9 :: acc) cs2
        else if e = 'r' then jstrBody (Char.ofNat 13 :: acc) cs2
        else none
    else jstrBody (c :: acc) cs

/-- Parse the optional exponent part of a JSON number and apply it to the
mantissa. -/
def jexp (mant : ℚ) (cs : List Char) : Option (ℚ × List Char) :=
  match cs with
  | 'e' :: t | 'E' :: t =>
    let (eneg, t1) : Bool × List Char :=
      match t with
      | '-' :: u => (true, u)
      | '+' :: u => (false, u)
      | _ => (false, t)
    let (eds, t2) := t1.span Char.isDigit
    if eds.isEmpty then none
    else
      let p : ℚ := mkRat (10 ^ natOfDigits eds : ℕ) 1
      some ((if eneg then qdiv mant p else qmul mant p), t2)
  | _ => some (mant, cs)

/-- Parse a JSON number (sign, integer part, optional fraction, optional
exponent) into an exact rational. -/
def jnumber (cs : List Char) : Option (ℚ × List Char) :=
  let (sign, cs1) : ℚ × List Char :=
    match cs with
    | '-' :: t => (-1, t)
    | _ => (1, cs)
  let (ip, cs2) := cs1.span Char.isDigit
  if ip.isEmpty then none
  else
    match cs2 with
    | '.' :: t =>
      let (fp, cs3) := t.span Char.isDigit
      if fp.isEmpty then none
      else
        jexp (qmul sign (qadd (mkRat (natOfDigits ip) 1)
          (mkRat (natOfDigits fp) (10 ^ fp.length)))) cs3
    | _ => jexp (qmul sign (mkRat (natOfDigits ip) 1)) cs2

/-- Fuel-indexed JSON value parser.  Arrays and objects recurse through
the same function: after one element and a comma, the rest of the
composite is re-parsed by prepending its opening bracket. -/
def jvalue : ℕ → List Char → Option (Json × List Char)
  | 0, _ => none
  | n + 1, cs =>
    match skipWs cs with
    | [] => none
    | c :: cs1 =>
      if c = qmark then
        (jstrBody [] cs1).map fun p => (Json.str p.1, p.2)
      else if c = '[' then
        match skipWs cs1 with
        | ']' :: r => some (Json.arr [], r)
        | _ =>
          match jvalue n cs1 with
          | none => none
          | some (v, r) =>
            match skipWs r with
            | ',' :: r2 =>
              match jvalue n ('[' :: r2) with
              | some (Json.arr vs, r3) => some (Json.arr (v :: vs), r3)
              | _ => none
            | ']' :: r2 => some (Json.arr [v], r2)
            | _ => none
      else if c = lbrace then
        match skipWs cs1 with
        | d :: r =>
          if d = rbrace then some (Json.obj [], r)
          else if d = qmark then
            match jstrBody [] r with
            | none => none
            | some (k, r1) =>
              match skipWs r1 with
              | ':' :: r2 =>
                match jvalue n r2 with
                | none => none
                | some (v, r3) =>
                  match skipWs r3 with
                  | ',' :: r4 =>
                    match jvalue n (lbrace :: qmark :: r4) with
                    | some (Json.obj kvs, r5) => some (Json.obj ((k, v) :: kvs), r5)
                    | _ => none
                  | e :: r4 =>
                    if e = rbrace then some (Json.obj [(k, v)], r4) else none
                  | [] => none
              | _ => none
          else none
        | [] => none
      else if c = 't' then
        match cs1 with
        | 'r' :: 'u' :: 'e' :: r => some (Json.bool true, r)
        | _ => none
      else if c = 'f' then
        match cs1 with
        | 'a' :: 'l' :: 's' :: 'e' :: r => some (Json.bool false, r)
        | _ => none
      else if c = 'n' then
        match cs1 with
        | 'u' :: 'l' :: 'l' :: r => some (Json.null, r)
        | _ => none
      else
        (jnumber (c :: cs1)).map fun p => (Json.num p.1, p.2)

/-- Model of Python's `json.loads` on the common JSON subset (strings
with simple escapes, exact decimal numbers, arrays, objects, literals):
`none` stands for the `ValueError` raised on invalid input. -/
def json_loads (s : String) : Option Json :=
  match jvalue (2 * s.length + 2) s.toList with
  | some (v, rest) => if (skipWs rest).isEmpty then some v else none
  | none => none

/-- Characters `urllib.quote_plus` passes through unescaped. -/
def alwaysSafe (c : Char) : Bool :=
  c.isAlpha || c.isDigit || c = '_' || c = '.' || c = '-'

/-- Uppercase hexadecimal digit for `n < 16`. -/
def hexDigit (n : ℕ) : Char :=
  if n < 10 then Char.ofNat (48 + n) else Char.ofNat (55 + n)

/-- Model of Python 2 `urllib.quote_plus` on ASCII text: space becomes
`+`, safe characters pass through, the rest is percent-encoded. -/
def quote_plus (s : String) : String :=
  String.mk
    ((s.toList.map fun c =>
      if c = ' ' then ['+']
      else if alwaysSafe c then [c]
      else ['%', hexDigit (c.toNat / 16 % 16), hexDigit (c.toNat % 16)]).flatten)

/-! ### Model of `gfw/cdb.py` -/

/-- Outcome of the single outbound `urlfetch` GET issued by `execute`:
a response with a status code and body, a raised
`urlfetch.DownloadError` (the only exception class `execute` catches),
or any other raised exception. -/
inductive FetchOutcome where
  | ok (status_code : ℤ) (content : String) : FetchOutcome
  | downloadError (msg : String) : FetchOutcome
  | otherError (msg : String) : FetchOutcome

/-- Exceptions that can escape `execute` to its caller. -/
inductive PyExc where
  | valueError : PyExc
  | uncaught (msg : String) : PyExc

/-- Severity of a log line emitted through the `logging` module. -/
inductive LogLevel where
  | info : LogLevel
  | error : LogLevel
deriving DecidableEq

/-- Observable behaviour of one `execute` call: its result (a normal
return carrying the parsed body or Python `None`, or a propagated
exception) and the log lines it emitted. -/
structure ExecuteRun where
  result : Except PyExc (Option Json)
  logs : List (LogLevel × String)

/-- CartoDB endpoint, from `cdb.py`. -/
def ENDPOINT : String := "http://wri-01.cartodb.com/api/v1/sql"

/-- Model of `cdb.execute`, `gfw/cdb.py` lines 29-41.  The outcome of
`rpc.get_result()` is supplied as an argument.  Mirrors the source: the
request URL is logged at info level; on a 200 response the body is
passed to `json.loads` (whose `ValueError` is not caught); on any other
status the function falls through and returns `None` without an error
log; a `urlfetch.DownloadError` is caught, logged at error level with
the offending query, and the function returns `None`; any other raised
exception propagates. -/
def execute (outcome : FetchOutcome) (query : String) : ExecuteRun :=
  let url := ENDPOINT ++ "?" ++ "q=" ++ quote_plus query
  let logs : List (LogLevel × String) := [(LogLevel.info, url)]
  match outcome with
  | .downloadError e =>
    { result := .ok none,
      logs := logs ++ [(LogLevel.error, "CartoDB SQL API Error: " ++ e ++ " " ++ query)] }
  | .otherError e => { result := .error (.uncaught e), logs := logs }
  | .ok status content =>
    if status = 200 then
      match json_loads content with
      | some j => { result := .ok (some j), logs := logs }
      | none => { result := .error .valueError, logs := logs }
    else { result := .ok none, logs := logs }

/-! ### Model of Python library primitives used by `truth.py` -/

/-- Model of Python 2 `float(s)` on plain decimal literals (optional
sign, digits, optional fraction, optional exponent): `none` stands for
the raised `ValueError`. -/
def pyFloat (s : String) : Option ℚ :=
  let cs := s.toList
  let (sign, cs1) : ℚ × List Char :=
    match cs with
    | '-' :: t => (-1, t)
    | '+' :: t => (1, t)
    | _ => (1, cs)
  let (ip, cs2) := cs1.span Char.isDigit
  let (fp, cs3) :=
    match cs2 with
    | '.' :: t => t.span Char.isDigit
    | _ => ([], cs2)
  if ip.isEmpty && fp.isEmpty then none
  else
    let mant :=
      qmul sign (qadd (mkRat (natOfDigits ip) 1) (mkRat (natOfDigits fp) (10 ^ fp.length)))
    match cs3 with
    | [] => some mant
    | 'e' :: t | 'E' :: t =>
      let (eneg, t1) : Bool × List Char :=
        match t with
        | '-' :: u => (true, u)
        | '+' :: u => (false, u)
        | _ => (false, t)
      let (eds, t2) := t1.span Char.isDigit
      if eds.isEmpty || !t2.isEmpty then none
      else
        let p : ℚ := mkRat (10 ^ natOfDigits eds : ℕ) 1
        some (if eneg then qdiv mant p else qmul mant p)
    | _ => none

/-- Model of Python 2 `s.split(',')`: split at every comma, keeping
empty pieces (so `""` gives `[""]` and `"a,,b"` gives three pieces),
exactly the Python semantics for an explicit separator. -/
def splitComma : List Char → List (List Char)
  | [] => [[]]
  | c :: cs =>
    let r := splitComma cs
    if c = ',' then [] :: r
    else
      match r with
      | h :: t => (c :: h) :: t
      | [] => [[c]]

/-- Model of Python 2 `int(s)` on plain decimal literals: `none` stands
for the raised `ValueError`. -/
def pyInt (s : String) : Option ℤ :=
  let cs := s.toList
  let (sign, cs1) : ℤ × List Char :=
    match cs with
    | '-' :: t => (-1, t)
    | '+' :: t => (1, t)
    | _ => (1, cs)
  let (ds, rest) := cs1.span Char.isDigit
  if ds.isEmpty || !rest.isEmpty then none
  else some (sign * natOfDigits ds)

/-- A `YYYY-MM-DD` date string, modelled by the day number it denotes.
The Python standard library calendar conversions
(`datetime.strptime(s,2 percent-codes)` and the matching `strftime`),
external to this repository, are modelled as the two mutually inverse
coercions `strptime` and `strftime` between this wrapper and `ℤ`. -/
structure DateStr where
  day : ℤ
deriving DecidableEq

/-- Model of `datetime.datetime.strptime(s, ...)` for the `%Y-%m-%d`
format: the datetime value is the day number the string denotes. -/
def strptime (s : DateStr) : ℤ := s.day

/-- Model of `datetime.datetime.strftime(d, ...)` for the `%Y-%m-%d`
format. -/
def strftime (d : ℤ) : DateStr := ⟨d⟩

/-! ### Model of the Earth Engine client objects used by `truth.py`

An Earth Engine scene is modelled by its id, its acquisition timestamp
`system:time_start` (measured in days, fractional times within a day
allowed), and its footprint, given as a decidable intersection test
against a polygon.  The platform catalog is a function from collection
name to scene list.  `filterDate`, `filterBounds` and descending sort
follow the documented Earth Engine semantics: `filterDate(b, e)` keeps
scenes with `b ≤ t < e` (half-open window), `filterBounds` keeps scenes
whose footprint intersects the geometry. -/

structure Scene where
  id : String
  time_start : ℚ
  intersects : List (ℚ × ℚ) → Bool

/-- The Earth Engine catalog: collection name to its scenes. -/
def EECatalog : Type := String → List Scene

/-- Model of `ee.ImageCollection(...).filterDate(b, e)`: the half-open
window `b ≤ time_start < e`. -/
def filterDate (coll : List Scene) (b e : ℤ) : List Scene :=
  coll.filter fun s => decide (((b : ℚ)) ≤ s.time_start ∧ s.time_start < ((e : ℚ)))

/-- Model of `coll.filterBounds(poly)`: keep scenes whose footprint
intersects the polygon. -/
def filterBounds (coll : List Scene) (poly : List (ℚ × ℚ)) : List Scene :=
  coll.filter fun s => s.intersects poly

/-- Descending order on acquisition time, the sort key of
`coll.sort(time-start-key, False)`. -/
def timeGE (a b : Scene) : Prop := b.time_start ≤ a.time_start

instance : DecidableRel timeGE :=
  fun a b => inferInstanceAs (Decidable (b.time_start ≤ a.time_start))

instance : IsTotal Scene timeGE := ⟨fun a b => (le_total b.time_start a.time_start)⟩

instance : IsTrans Scene timeGE := ⟨fun _ _ _ h1 h2 => le_trans h2 h1⟩

/-! ### Model of `gfw/truth.py` -/

/-- Model of `createBox`, `truth.py` lines 43-56.  `lon`/`lat` are the
Python floats coming from `_params_prep`; `w`/`h` are the Python ints
coming from `_params_prep`, so the Python 2 expression `h / 2` is
integer floor division, modelled by `Int.fdiv`. -/
def createBox (lon lat : ℚ) (w h : ℤ) (ccw : Bool := true) : List (ℚ × ℚ) :=
  let h_deg := qdiv (mkRat (Int.fdiv h 2) 1) (qmul 60 1602)
  let w_deg := qdiv (mkRat (Int.fdiv w 2) 1) (qmul 60 1602)
  [(qadd lon w_deg, qadd lat h_deg),
   (qsub lon w_deg, qadd lat h_deg),
   (qsub lon w_deg, qsub lat h_deg),
   (qadd lon w_deg, qsub lat h_deg),
   (qadd lon w_deg, qadd lat h_deg)]

/-- Symbolic Earth Engine image expressions: the image algebra is
executed remotely, so the client-side value is the expression tree the
module builds. -/
inductive Img where
  | image (loc : String) : Img
  | select1 (i : Img) (b : String) : Img
  | select2 (i : Img) (b1 b2 : String) : Img
  | select3 (i : Img) (b1 b2 b3 : String) : Img
  | eq (i : Img) (v : ℤ) : Img
  | and (a b : Img) : Img
  | or (a b : Img) : Img
  | not (a : Img) : Img
  | mask0 (i : Img) : Img
  | maskWith (i m : Img) : Img
  | rgbtohsv (i : Img) : Img
  | cat (a b : Img) : Img
  | hsvtorgb (i : Img) : Img
  | visualize (i : Img) (vmin vmax gamma : ℚ) : Img
deriving DecidableEq

/-- Model of `cloudMask`, `truth.py` lines 29-40: the three fixed
quality-band sentinel values, combined exactly as in the source. -/
def cloudMask (img : Img) : Img :=
  let quality := Img.select1 img "BQA"
  let cloud_hc := Img.eq quality 61440
  let cloud_hn := Img.eq quality 53248
  let cloud_lc := Img.eq quality 28672
  let masked_image :=
    Img.and (Img.mask0 img) (Img.not (Img.or (Img.or cloud_hc cloud_hn) cloud_lc))
  Img.maskWith img masked_image

/-- Model of `hsvpan`, `truth.py` lines 59-63. -/
def hsvpan (rgb gray : Img) : Img :=
  let huesat := Img.select2 (Img.rgbtohsv rgb) "hue" "saturation"
  let upres := Img.hsvtorgb (Img.cat huesat gray)
  upres

/-- A thumbnail request as produced by `getThumbUrl`: the visualized
image expression together with the fixed request parameters.  The
`region` parameter is the bounding-box ring (`str(coords)` in the
source serializes exactly this value). -/
structure ThumbUrl where
  image : Img
  scale : ℤ
  crs : String
  region : List (ℚ × ℚ)
deriving DecidableEq

/-- Model of `landsatID`, `truth.py` lines 66-80: filter the hardcoded
collection to the window and the polygon, sort by acquisition time
descending, take the first id.  `none` stands for the `IndexError`
raised by the unguarded `['features'][0]` on an empty result. -/
def landsatID (ee : EECatalog) (alert_date : DateStr) (coords : List (ℚ × ℚ))
    (offset_days : ℤ := 30) : Option String :=
  let d := strptime alert_date
  let begin_date := d - offset_days
  let poly := coords
  let coll := filterDate (ee "LANDSAT/LC8_L1T_TOA") begin_date d
  let coll := filterBounds coll poly
  let desc := (List.insertionSort timeGE coll).take 1
  desc.head?.map Scene.id

/-- Model of `_img_url`, `truth.py` lines 94-109.  The visualization
parameters are the source constants: `min` 0.01 = `mkRat 1 100`, `max`
0.5 = `mkRat 1 2`, `gamma` 1.7 = `mkRat 17 10` (written through `mkRat`
so that concrete runs reduce in the kernel). -/
def _img_url (image_id : String) (coords : List (ℚ × ℚ)) : ThumbUrl :=
  let loc := "LANDSAT/" ++ image_id
  let input := cloudMask (Img.image loc)
  let rgb := Img.select3 input "B6" "B5" "B4"
  let pan := Img.select1 input "B8"
  let sharp := hsvpan rgb pan
  let visual_image := Img.visualize sharp (mkRat 1 100) (mkRat 1 2) (mkRat 17 10)
  { image := visual_image, scale := 30, crs := "EPSG:4326", region := coords }

/-- The four-entry mapping `_boom_hammer` returns: its keys are the
fixed labels `alert_date`, `t_minus_one`, `t_minus_two`,
`t_minus_three`. -/
structure ThumbnailSet where
  alert_date : ThumbUrl
  t_minus_one : ThumbUrl
  t_minus_two : ThumbUrl
  t_minus_three : ThumbUrl
deriving DecidableEq

/-- Model of `_boom_hammer`, `truth.py` lines 111-138.  The `date`
argument is the raw `params.get('date')` value: `none` models the
Python `None` on which `strptime` raises.  A failed scene lookup
(`landsatID` raising) propagates, making the whole call fail. -/
def _boom_hammer (ee : EECatalog) (lat lon : ℚ) (h w : ℤ) (date : Option DateStr)
    (res : String) (asset : Option String) (fmt : String) : Option ThumbnailSet :=
  let coords := createBox lon lat w h
  let _get : ℤ → Option ThumbUrl := fun d =>
    let str_date := strftime d
    (landsatID ee str_date coords).map fun i => _img_url i coords
  match date with
  | none => none
  | some date =>
    let init_date := strptime date
    let t_minus_one := init_date - 30
    let t_minus_two := init_date - 60
    let t_minus_three := init_date - 90
    match _get init_date, _get t_minus_one, _get t_minus_two, _get t_minus_three with
    | some a, some b, some c, some d =>
      some { alert_date := a, t_minus_one := b, t_minus_two := c, t_minus_three := d }
    | _, _, _, _ => none

/-- The flat request parameters `find` receives, one optional field per
key the module reads.  The `date` value is a date string, represented
by `DateStr`. -/
structure Params where
  ll : Option String
  dim : Option String
  res : Option String
  fmt : Option String
  date : Option DateStr
  asset : Option String

/-- The prepared parameter record `_params_prep` builds. -/
structure Prepped where
  lat : ℚ
  lon : ℚ
  h : ℤ
  w : ℤ
  res : String
  fmt : String
  date : Option DateStr
  asset : Option String
deriving DecidableEq

/-- Model of `_params_prep`, `truth.py` lines 141-150.  `none` stands
for the exception raised when `ll`/`dim` is missing, has the wrong
arity, or fails numeric parsing; `res` defaults to `"true"` and `fmt`
to `"img"` exactly when the key is absent. -/
def _params_prep (params : Params) : Option Prepped :=
  match params.ll with
  | none => none
  | some llStr =>
    match (splitComma llStr.toList).map (fun p => pyFloat (String.mk p)) with
    | [some lat, some lon] =>
      match params.dim with
      | none => none
      | some dimStr =>
        match (splitComma dimStr.toList).map (fun p => pyInt (String.mk p)) with
        | [some h, some w] =>
          let res := match params.res with | none => "true" | some v => v
          let fmt := match params.fmt with | none => "img" | some v => v
          some { lat := lat, lon := lon, h := h, w := w, res := res, fmt := fmt,
                 date := params.date, asset := params.asset }
        | _ => none
    | _ => none

/-- One raw-bytes fetch issued through `urlfetch`, as `_fetch_url`
performs it: the 50-second deadline from the source and the value the
fetch was invoked on.  (In `find` that value is the whole mapping
returned by `_boom_hammer`, not a URL string.) -/
structure FetchCall where
  deadline : ℤ
  url : ThumbnailSet
deriving DecidableEq

/-- Outcome environment for the raw fetch inside `_fetch_url`: for the
value the fetch is invoked on, either the bytes `rpc.get_result()`
returns, or `none` when the fetch raises - a `DownloadError` on the
50-second fetch, or the urlfetch library rejecting the non-string
argument (`find` passes it the `_boom_hammer` dict).  `find` catches
neither. -/
def RawFetchEnv : Type := ThumbnailSet → Option String

/-- Model of `_fetch_url`, `truth.py` lines 153-157: create an rpc with
deadline 50, issue the fetch on the supplied value and return
`rpc.get_result()`, which may raise - the environment outcome `none`.
The issued call is returned alongside so the caller's trace can record
it. -/
def _fetch_url (env : RawFetchEnv) (url : ThumbnailSet) : FetchCall × Option String :=
  ({ deadline := 50, url := url }, env url)

/-- Observable behaviour of one `find` call: the returned value
(`none` models a propagated exception) and the raw fetches issued. -/
structure FindRun where
  result : Option ThumbnailSet
  fetches : List FetchCall
deriving DecidableEq

/-- Model of `find`, `truth.py` lines 160-168: prepare the params,
(initialize the session and deadline - no observable effect in the
model), call `_boom_hammer`, pass its result to `_fetch_url`.  When the
fetch raises (outcome `none`) the exception propagates out of `find`
and `return url` is never reached; when it returns, its result is bound
and unused and `find` returns the `_boom_hammer` value. -/
def find (ee : EECatalog) (rawFetch : RawFetchEnv) (params : Params) : FindRun :=
  match _params_prep params with
  | none => { result := none, fetches := [] }
  | some boom =>
    match _boom_hammer ee boom.lat boom.lon boom.h boom.w boom.date boom.res boom.asset
        boom.fmt with
    | none => { result := none, fetches := [] }
    | some url =>
      let fetched := _fetch_url rawFetch url
      match fetched.2 with
      | none => { result := none, fetches := [fetched.1] }
      | some _result => { result := some url, fetches := [fetched.1] }

/-- The `find` variant with the `_fetch_url` call removed, the
comparison point for the inert-fetch claim. -/
def findNoFetch (ee : EECatalog) (params : Params) : Option ThumbnailSet :=
  match _params_prep params with
  | none => none
  | some boom =>
    _boom_hammer ee boom.lat boom.lon boom.h boom.w boom.date boom.res boom.asset boom.fmt

/-! ### Concrete fixtures

A small Earth Engine catalog and request used to exercise the model on
closed inputs: four scenes that intersect everything, one inside each of
the four 30-day windows before day 16222 (2014-06-01). -/

def demoScenes : List Scene :=
  [{ id := "LC81", time_start := 16220, intersects := fun _ => true },
   { id := "LC82", time_start := 16180, intersects := fun _ => true },
   { id := "LC83", time_start := 16150, intersects := fun _ => true },
   { id := "LC84", time_start := 16120, intersects := fun _ => true }]

def demoCatalog : EECatalog := fun _ => demoScenes

def demoParams : Params :=
  { ll := some "1.0,2.0", dim := some "256,256", res := none, fmt := none,
    date := some ⟨16222⟩, asset := none }

def demoThumbs : ThumbnailSet :=
  { alert_date := _img_url "LC81" (createBox 2 1 256 256),
    t_minus_one := _img_url "LC82" (createBox 2 1 256 256),
    t_minus_two := _img_url "LC83" (createBox 2 1 256 256),
    t_minus_three := _img_url "LC84" (createBox 2 1 256 256) }

/-- A fetch environment in which the raw fetch returns (empty bytes). -/
def demoFetchOk : RawFetchEnv := fun _ => some ""

/-- A fetch environment in which the raw fetch raises - the realistic
trace of the source, where `_fetch_url` is handed the `_boom_hammer`
dict rather than a URL string. -/
def demoFetchFail : RawFetchEnv := fun _ => none

/-! ### Claims about `createBox` -/

/-- C5: `createBox` returns exactly 5 points, point 0 equals point 4,
the ring is centered on `(lon, lat)` (the average of the 4 corners is
exactly `(lon, lat)`, strengthening the floating-tolerance statement to
exact rational equality), and for `w = h = 0` the ring is degenerate
with all 5 points equal to `(lon, lat)`. -/
theorem createBox_ring_spec (lon lat : ℚ) (w h : ℤ) (ccw : Bool) :
    (createBox lon lat w h ccw).length = 5 ∧
    (createBox lon lat w h ccw).head? = (createBox lon lat w h ccw).get? 4 ∧
    (((createBox lon lat w h ccw).take 4).map Prod.fst).sum / 4 = lon ∧
    (((createBox lon lat w h ccw).take 4).map Prod.snd).sum / 4 = lat ∧
    (w = 0 → h = 0 → createBox lon lat w h ccw = List.replicate 5 (lon, lat)) := by
  refine ⟨rfl, rfl, ?_, ?_, ?_⟩
  · simp only [createBox, qadd_eq, qsub_eq, qdiv_eq, qmul_eq, List.take, List.map,
      List.sum_cons, List.sum_nil]
    ring
  · simp only [createBox, qadd_eq, qsub_eq, qdiv_eq, qmul_eq, List.take, List.map,
      List.sum_cons, List.sum_nil]
    ring
  · rintro rfl rfl
    have h0 : Int.fdiv 0 2 = 0 := rfl
    simp only [createBox, qadd_eq, qsub_eq, qdiv_eq, qmul_eq, h0, List.replicate]
    norm_num [Rat.mkRat_eq_divInt, Rat.divInt_eq_div]

/-- C5 witness: the theorem applied at `lon = 3`, `lat = 7`,
`w = h = 0`, with both hypotheses of the degenerate-ring conjunct
discharged. -/
theorem createBox_ring_spec_witness :
    (createBox 3 7 0 0 true).length = 5 ∧
    createBox 3 7 0 0 true = List.replicate 5 (3, 7) :=
  ⟨(createBox_ring_spec 3 7 0 0 true).1,
   (createBox_ring_spec 3 7 0 0 true).2.2.2.2 rfl rfl⟩

/-- C6: the `ccw` parameter of `createBox` has no effect on the output:
any two flag values give the same ring, point for point. -/
theorem createBox_ccw_no_effect (lon lat : ℚ) (w h : ℤ) (c1 c2 : Bool) :
    createBox lon lat w h c1 = createBox lon lat w h c2 := rfl

/-- C10: `createBox` computes the half-extents by Python 2 floor
division of the integer sizes by 2, so odd sizes lose the half meter:
odd `w, h` give the same ring as `w - 1, h - 1`, and in particular
`w = h = 1` gives the same degenerate all-centre ring as `w = h = 0`. -/
theorem createBox_floor_division (lon lat : ℚ) (w h : ℤ) (ccw : Bool) :
    (Odd w → Odd h → createBox lon lat w h ccw = createBox lon lat (w - 1) (h - 1) ccw) ∧
    createBox lon lat 1 1 ccw = createBox lon lat 0 0 ccw ∧
    createBox lon lat 1 1 ccw = List.replicate 5 (lon, lat) := by
  have hfd : ∀ k : ℤ, Odd k → Int.fdiv k 2 = Int.fdiv (k - 1) 2 := by
    rintro k ⟨m, rfl⟩
    rw [Int.fdiv_eq_ediv _ (by norm_num), Int.fdiv_eq_ediv _ (by norm_num)]
    omega
  have hdeg : createBox lon lat 1 1 ccw = List.replicate 5 (lon, lat) := by
    have h1 : Int.fdiv 1 2 = 0 := rfl
    simp only [createBox, qadd_eq, qsub_eq, qdiv_eq, qmul_eq, h1, List.replicate]
    norm_num [Rat.mkRat_eq_divInt, Rat.divInt_eq_div]
  refine ⟨fun hw hh => ?_, ?_, hdeg⟩
  · simp only [createBox, hfd w hw, hfd h hh]
  · have h0 : createBox lon lat 0 0 ccw = List.replicate 5 (lon, lat) := by
      have hz : Int.fdiv 0 2 = 0 := rfl
      simp only [createBox, qadd_eq, qsub_eq, qdiv_eq, qmul_eq, hz, List.replicate]
      norm_num [Rat.mkRat_eq_divInt, Rat.divInt_eq_div]
    rw [hdeg, h0]

/-- C10 witness: the theorem applied at `lon = 5`, `lat = 6`,
`w = h = 9` with both oddness hypotheses discharged. -/
theorem createBox_floor_division_witness :
    createBox 5 6 9 9 true = createBox 5 6 8 8 true ∧
    createBox 5 6 1 1 true = List.replicate 5 (5, 6) :=
  ⟨(createBox_floor_division 5 6 9 9 true).1 (by decide) (by decide),
   (createBox_floor_division 5 6 1 1 true).2.2⟩

/-! ### Claim about `_params_prep` -/

def demoParams2 : Params :=
  { ll := some "1.5,2.5", dim := some "100,200", res := none, fmt := none,
    date := none, asset := none }

def demoPrepped : Prepped :=
  { lat := mkRat 3 2, lon := mkRat 5 2, h := 100, w := 200, res := "true", fmt := "img",
    date := none, asset := none }

/-- C7: whenever `_params_prep` succeeds, `res` defaults to `"true"`
and `fmt` to `"img"` exactly when the key is absent, and the sample
inputs parse as stated: `ll = "1.5,2.5"` gives `lat = 1.5`,
`lon = 2.5`, `dim = "100,200"` gives `h = 100`, `w = 200`. -/
theorem params_prep_spec (params : Params) (p : Prepped)
    (hp : _params_prep params = some p) :
    (params.res = none → p.res = "true") ∧
    (params.fmt = none → p.fmt = "img") ∧
    (params.ll = some "1.5,2.5" → p.lat = 1.5 ∧ p.lon = 2.5) ∧
    (params.dim = some "100,200" → p.h = 100 ∧ p.w = 200) := by
  obtain ⟨ll, dim, res, fmt, date, asset⟩ := params
  unfold _params_prep at hp
  dsimp only at hp
  split at hp
  · exact absurd hp (by simp)
  next llStr =>
    split at hp
    next lat lon heqll =>
      split at hp
      · exact absurd hp (by simp)
      next dimStr =>
        split at hp
        next h w heqdim =>
          rw [Option.some.injEq] at hp
          subst hp
          refine ⟨fun hres => ?_, fun hfmt => ?_, fun hll => ?_, fun hdim => ?_⟩
          · simp only at hres
            subst hres
            rfl
          · simp only at hfmt
            subst hfmt
            rfl
          · simp only [Option.some.injEq] at hll
            subst hll
            have heval : (splitComma ("1.5,2.5").toList).map (fun p => pyFloat (String.mk p))
                = [some (mkRat 3 2), some (mkRat 5 2)] := by decide
            rw [heval] at heqll
            injection heqll with h1 h2
            injection h2 with h3 _
            injection h1 with e1
            injection h3 with e2
            constructor
            · rw [← e1, Rat.mkRat_eq_divInt, Rat.divInt_eq_div]
              norm_num
            · rw [← e2, Rat.mkRat_eq_divInt, Rat.divInt_eq_div]
              norm_num
          · simp only [Option.some.injEq] at hdim
            subst hdim
            have heval : (splitComma ("100,200").toList).map (fun p => pyInt (String.mk p))
                = [some 100, some 200] := by decide
            rw [heval] at heqdim
            injection heqdim with h1 h2
            injection h2 with h3 _
            injection h1 with e1
            injection h3 with e2
            exact ⟨e1.symm, e2.symm⟩
        · exact absurd hp (by simp)
    · exact absurd hp (by simp)

/-- C7 witness: the theorem applied at the concrete params
`ll = "1.5,2.5"`, `dim = "100,200"`, no `res`, no `fmt`, with every
hypothesis discharged on that input. -/
theorem params_prep_spec_witness :
    demoPrepped.res = "true" ∧ demoPrepped.fmt = "img" ∧
    (demoPrepped.lat = 1.5 ∧ demoPrepped.lon = 2.5) ∧
    (demoPrepped.h = 100 ∧ demoPrepped.w = 200) :=
  let T := params_prep_spec demoParams2 demoPrepped (by decide)
  ⟨T.1 rfl, T.2.1 rfl, T.2.2.1 rfl, T.2.2.2 rfl⟩

/-! ### Claims about `cdb.execute` -/

/-- C3 (amended): `execute` returns the parsed JSON body on a 200
response with a parseable body; on any other status it returns `None`
but emits no error log; on a caught `DownloadError` it returns `None`
and logs the error including the offending query; it raises to its
caller when a 200 body is not valid JSON (`ValueError` from
`json.loads`) and when the fetch raises anything other than
`DownloadError`. -/
theorem execute_error_handling (query : String) (outcome : FetchOutcome) :
    (∀ content j, outcome = .ok 200 content → json_loads content = some j →
      (execute outcome query).result = .ok (some j)) ∧
    (∀ content, outcome = .ok 200 content → json_loads content = none →
      (execute outcome query).result = .error .valueError) ∧
    (∀ status content, outcome = .ok status content → status ≠ 200 →
      (execute outcome query).result = .ok none ∧
      ∀ m, (LogLevel.error, m) ∉ (execute outcome query).logs) ∧
    (∀ e, outcome = .downloadError e →
      (execute outcome query).result = .ok none ∧
      (LogLevel.error, "CartoDB SQL API Error: " ++ e ++ " " ++ query)
        ∈ (execute outcome query).logs) ∧
    (∀ e, outcome = .otherError e →
      (execute outcome query).result = .error (.uncaught e)) := by
  refine ⟨?_, ?_, ?_, ?_, ?_⟩
  · rintro content j rfl hj
    simp [execute, hj]
  · rintro content rfl hj
    simp [execute, hj]
  · rintro status content rfl hs
    refine ⟨by simp [execute, hs], ?_⟩
    intro m
    simp [execute, hs]
  · rintro e rfl
    exact ⟨rfl, by simp [execute]⟩
  · rintro e rfl
    rfl

/-- C3 witness: the theorem applied to the stubbed 200 response with
body containing an empty rows array, and to a stubbed timeout
(`DownloadError`), with all hypotheses discharged. -/
theorem execute_error_handling_witness :
    (execute (.ok 200 "\x7b\"rows\": []\x7d") "SELECT 1").result
      = .ok (some (Json.obj [("rows", Json.arr [])])) ∧
    (execute (.downloadError "Deadline exceeded") "SELECT 1").result = .ok none :=
  ⟨(execute_error_handling "SELECT 1" (.ok 200 "\x7b\"rows\": []\x7d")).1
      "\x7b\"rows\": []\x7d" (Json.obj [("rows", Json.arr [])]) rfl rfl,
   ((execute_error_handling "SELECT 1" (.downloadError "Deadline exceeded")).2.2.2.1
      "Deadline exceeded" rfl).1⟩

/-- C3 counterexample to the claim as stated: a 200 response whose body
is not valid JSON makes `execute` raise a `ValueError` to its caller
(the claim says it never raises), and a 500 response leaves only the
info-level request log, no error log including the query (the claim
says the error is logged). -/
theorem execute_claim_counterexample :
    (execute (.ok 200 "not json") "SELECT 1").result = .error .valueError ∧
    (execute (.ok 500 "oops") "SELECT 1").logs
      = [(LogLevel.info, "http://wri-01.cartodb.com/api/v1/sql?q=SELECT+1")] :=
  ⟨rfl, rfl⟩

/-! ### Claim about `landsatID` -/

theorem head_take_one {α : Type} (l : List α) : (l.take 1).head? = l.head? := by
  cases l <;> rfl

/-- C4: `landsatID` fails (raises) exactly when no scene of the
hardcoded collection lies in the half-open window
`[alert_date - offset_days, alert_date)` and intersects the
coordinates; otherwise it returns the id of a scene of that window
intersecting the box whose acquisition timestamp is maximal among such
scenes (and in particular strictly less than `alert_date`). -/
theorem landsatID_nearest_scene (ee : EECatalog) (alert_date : DateStr)
    (coords : List (ℚ × ℚ)) (offset_days : ℤ) :
    (landsatID ee alert_date coords offset_days = none ↔
      ∀ s ∈ ee "LANDSAT/LC8_L1T_TOA",
        ¬(((alert_date.day - offset_days : ℤ) : ℚ) ≤ s.time_start ∧
          s.time_start < ((alert_date.day : ℤ) : ℚ) ∧ s.intersects coords = true)) ∧
    (∀ i, landsatID ee alert_date coords offset_days = some i →
      ∃ s ∈ ee "LANDSAT/LC8_L1T_TOA",
        s.id = i ∧
        ((alert_date.day - offset_days : ℤ) : ℚ) ≤ s.time_start ∧
        s.time_start < ((alert_date.day : ℤ) : ℚ) ∧ s.intersects coords = true ∧
        ∀ s2 ∈ ee "LANDSAT/LC8_L1T_TOA",
          ((alert_date.day - offset_days : ℤ) : ℚ) ≤ s2.time_start →
          s2.time_start < ((alert_date.day : ℤ) : ℚ) →
          s2.intersects coords = true →
          s2.time_start ≤ s.time_start) := by
  have hmem : ∀ s, s ∈ filterBounds
      (filterDate (ee "LANDSAT/LC8_L1T_TOA") (alert_date.day - offset_days)
        alert_date.day) coords
      ↔ s ∈ ee "LANDSAT/LC8_L1T_TOA" ∧
        (((alert_date.day - offset_days : ℤ) : ℚ) ≤ s.time_start ∧
          s.time_start < ((alert_date.day : ℤ) : ℚ) ∧ s.intersects coords = true) := by
    intro s
    simp only [filterBounds, filterDate, List.mem_filter, decide_eq_true_eq, and_assoc]
  have hL : landsatID ee alert_date coords offset_days
      = (List.insertionSort timeGE
          (filterBounds (filterDate (ee "LANDSAT/LC8_L1T_TOA")
            (alert_date.day - offset_days) alert_date.day) coords)).head?.map Scene.id := by
    rw [landsatID, head_take_one]
    rfl
  set F := filterBounds (filterDate (ee "LANDSAT/LC8_L1T_TOA")
    (alert_date.day - offset_days) alert_date.day) coords with hF
  constructor
  · rw [hL]
    rw [Option.map_eq_none']
    constructor
    · intro hnil s hs
      have hFnil : F = [] := by
        have := List.length_insertionSort timeGE F
        rw [List.head?_eq_none_iff] at hnil
        rw [hnil] at this
        simpa using List.length_eq_zero.1 this.symm
      intro hc
      have : s ∈ F := (hmem s).2 ⟨hs, hc⟩
      rw [hFnil] at this
      simp at this
    · intro hall
      have hFnil : F = [] := by
        rw [List.eq_nil_iff_forall_not_mem]
        intro s hsF
        obtain ⟨hs, hc⟩ := (hmem s).1 hsF
        exact hall s hs hc
      rw [List.head?_eq_none_iff]
      rw [← List.length_eq_zero, List.length_insertionSort, hFnil]
      rfl
  · intro i hi
    rw [hL] at hi
    rw [Option.map_eq_some'] at hi
    obtain ⟨s, hhead, hid⟩ := hi
    have hsorted : List.Sorted timeGE (List.insertionSort timeGE F) :=
      List.sorted_insertionSort timeGE F
    cases hLs : List.insertionSort timeGE F with
    | nil => rw [hLs] at hhead; simp at hhead
    | cons a rest =>
      rw [hLs] at hhead
      simp only [List.head?_cons, Option.some.injEq] at hhead
      subst hhead
      have haF : a ∈ F := by
        rw [← List.mem_insertionSort timeGE (l := F), hLs]
        simp
      obtain ⟨hcat, hwin⟩ := (hmem a).1 haF
      refine ⟨a, hcat, hid, hwin.1, hwin.2.1, hwin.2.2, ?_⟩
      intro s2 hs2cat h1 h2 h3
      have hs2F : s2 ∈ F := (hmem s2).2 ⟨hs2cat, h1, h2, h3⟩
      have hs2L : s2 ∈ List.insertionSort timeGE F :=
        (List.mem_insertionSort timeGE).2 hs2F
      rw [hLs] at hs2L
      rcases List.mem_cons.1 hs2L with h | h
      · subst h; exact le_refl _
      · rw [hLs] at hsorted
        exact (List.sorted_cons.1 hsorted).1 s2 h

/-- C4 witness: the theorem applied to the demo catalog at day 16222
with the default 30-day window: the lookup returns `"LC81"`, the scene
acquired at day 16220, maximal in the window. -/
theorem landsatID_nearest_scene_witness :
    ∃ s ∈ demoCatalog "LANDSAT/LC8_L1T_TOA",
      s.id = "LC81" ∧
      ((16222 - 30 : ℤ) : ℚ) ≤ s.time_start ∧
      s.time_start < ((16222 : ℤ) : ℚ) ∧ s.intersects (createBox 2 1 256 256) = true ∧
      ∀ s2 ∈ demoCatalog "LANDSAT/LC8_L1T_TOA",
        ((16222 - 30 : ℤ) : ℚ) ≤ s2.time_start →
        s2.time_start < ((16222 : ℤ) : ℚ) →
        s2.intersects (createBox 2 1 256 256) = true →
        s2.time_start ≤ s.time_start :=
  (landsatID_nearest_scene demoCatalog ⟨16222⟩ (createBox 2 1 256 256) 30).2 "LC81"
    (by decide)

/-! ### Helper lemmas about `_boom_hammer` and `find` -/

def demoBoom : Prepped :=
  { lat := 1, lon := 2, h := 256, w := 256, res := "true", fmt := "img",
    date := some ⟨16222⟩, asset := none }

/-- On success, each entry of the `_boom_hammer` mapping is the
visualization URL of the scene resolved at its own offset date, all
against the single bounding box `createBox lon lat w h`. -/
theorem boom_hammer_components (ee : EECatalog) (lat lon : ℚ) (h w : ℤ)
    (date : DateStr) (res : String) (asset : Option String) (fmt : String)
    (t : ThumbnailSet)
    (hb : _boom_hammer ee lat lon h w (some date) res asset fmt = some t) :
    ((landsatID ee (strftime date.day) (createBox lon lat w h)).map
        (fun i => _img_url i (createBox lon lat w h)) = some t.alert_date) ∧
    ((landsatID ee (strftime (date.day - 30)) (createBox lon lat w h)).map
        (fun i => _img_url i (createBox lon lat w h)) = some t.t_minus_one) ∧
    ((landsatID ee (strftime (date.day - 60)) (createBox lon lat w h)).map
        (fun i => _img_url i (createBox lon lat w h)) = some t.t_minus_two) ∧
    ((landsatID ee (strftime (date.day - 90)) (createBox lon lat w h)).map
        (fun i => _img_url i (createBox lon lat w h)) = some t.t_minus_three) := by
  unfold _boom_hammer at hb
  dsimp only [strptime] at hb
  split at hb
  next a b c d heq1 heq2 heq3 heq4 =>
    rw [Option.some.injEq] at hb
    subst hb
    exact ⟨heq1, heq2, heq3, heq4⟩
  next hne =>
    exact absurd hb (by simp)

/-- A successful `find` run decomposes into a successful `_params_prep`
and a successful `_boom_hammer` on the prepared values (and on the way
the raw fetch of the mapping must have returned). -/
theorem find_components (ee : EECatalog) (rawFetch : RawFetchEnv) (params : Params)
    (t : ThumbnailSet) (hf : (find ee rawFetch params).result = some t) :
    ∃ boom, _params_prep params = some boom ∧
      _boom_hammer ee boom.lat boom.lon boom.h boom.w boom.date boom.res boom.asset
        boom.fmt = some t := by
  unfold find at hf
  split at hf
  · simp at hf
  next boom heq =>
    split at hf
    · simp at hf
    next url hb =>
      dsimp only [_fetch_url] at hf
      split at hf
      · simp at hf
      · dsimp only at hf
        rw [Option.some.injEq] at hf
        subst hf
        exact ⟨boom, heq, hb⟩

/-! ### Claim about `_boom_hammer` -/

/-- C8: on every successful run, `_boom_hammer` builds the bounding box
once (the same `createBox lon lat w h` underlies all four entries) and
performs four independent nearest-scene lookups - at the alert date and
at 30, 60 and 90 days prior - returning the record with exactly the
four labels, each bound to the visualization URL of the scene resolved
at its own date. -/
theorem boom_hammer_four_lookups (ee : EECatalog) (lat lon : ℚ) (h w : ℤ)
    (date : DateStr) (res : String) (asset : Option String) (fmt : String)
    (t : ThumbnailSet)
    (hb : _boom_hammer ee lat lon h w (some date) res asset fmt = some t) :
    ((landsatID ee (strftime date.day) (createBox lon lat w h)).map
        (fun i => _img_url i (createBox lon lat w h)) = some t.alert_date) ∧
    ((landsatID ee (strftime (date.day - 30)) (createBox lon lat w h)).map
        (fun i => _img_url i (createBox lon lat w h)) = some t.t_minus_one) ∧
    ((landsatID ee (strftime (date.day - 60)) (createBox lon lat w h)).map
        (fun i => _img_url i (createBox lon lat w h)) = some t.t_minus_two) ∧
    ((landsatID ee (strftime (date.day - 90)) (createBox lon lat w h)).map
        (fun i => _img_url i (createBox lon lat w h)) = some t.t_minus_three) :=
  boom_hammer_components ee lat lon h w date res asset fmt t hb

/-- C8 witness: the theorem applied to the demo catalog and the
prepared demo request, hypotheses discharged by computation. -/
theorem boom_hammer_four_lookups_witness :
    ((landsatID demoCatalog (strftime 16222) (createBox 2 1 256 256)).map
        (fun i => _img_url i (createBox 2 1 256 256)) = some demoThumbs.alert_date) ∧
    ((landsatID demoCatalog (strftime (16222 - 30)) (createBox 2 1 256 256)).map
        (fun i => _img_url i (createBox 2 1 256 256)) = some demoThumbs.t_minus_one) ∧
    ((landsatID demoCatalog (strftime (16222 - 60)) (createBox 2 1 256 256)).map
        (fun i => _img_url i (createBox 2 1 256 256)) = some demoThumbs.t_minus_two) ∧
    ((landsatID demoCatalog (strftime (16222 - 90)) (createBox 2 1 256 256)).map
        (fun i => _img_url i (createBox 2 1 256 256)) = some demoThumbs.t_minus_three) :=
  boom_hammer_four_lookups demoCatalog 1 2 256 256 ⟨16222⟩ "true" none "img" demoThumbs
    (by decide)

/-! ### Claims about `find` -/

/-- C1 (amended): `find` never returns only the alert-date URL.
Whenever `_params_prep` and `_boom_hammer` succeed, the raw fetch of
the whole mapping is issued: if it returns, `find` returns the full
four-entry mapping, nothing discarded; if it raises (as the urlfetch
library does on the dict argument, or on a timeout), the exception
propagates and `find` returns nothing at all. -/
theorem find_returns_full_mapping (ee : EECatalog) (rawFetch : RawFetchEnv)
    (params : Params) (boom : Prepped) (t : ThumbnailSet)
    (hp : _params_prep params = some boom)
    (hb : _boom_hammer ee boom.lat boom.lon boom.h boom.w boom.date boom.res boom.asset
      boom.fmt = some t) :
    (∀ bytes, rawFetch t = some bytes → (find ee rawFetch params).result = some t) ∧
    (rawFetch t = none → (find ee rawFetch params).result = none) := by
  constructor
  · intro bytes hr
    simp [find, hp, hb, _fetch_url, hr]
  · intro hr
    simp [find, hp, hb, _fetch_url, hr]

/-- C1 witness: on the demo input, `find` returns the full demo mapping
under the returning fetch environment and nothing under the raising
one; both hypotheses discharged by computation. -/
theorem find_returns_full_mapping_witness :
    (find demoCatalog demoFetchOk demoParams).result = some demoThumbs ∧
    (find demoCatalog demoFetchFail demoParams).result = none :=
  ⟨(find_returns_full_mapping demoCatalog demoFetchOk demoParams demoBoom demoThumbs
      (by decide) (by decide)).1 "" rfl,
   (find_returns_full_mapping demoCatalog demoFetchFail demoParams demoBoom demoThumbs
      (by decide) (by decide)).2 rfl⟩

/-- C1 counterexample to the claim as stated: on the demo input, when
the raw fetch returns, `find`'s return value contains the historical
`t_minus_one` URL, distinct from the alert-date URL - so it is not only
the alert-date URL; and when the raw fetch raises, `find` returns no
URL at all. -/
theorem find_single_url_counterexample :
    ((find demoCatalog demoFetchOk demoParams).result.map ThumbnailSet.t_minus_one
      = some (_img_url "LC82" (createBox 2 1 256 256)) ∧
     (find demoCatalog demoFetchOk demoParams).result.map ThumbnailSet.t_minus_one
      ≠ (find demoCatalog demoFetchOk demoParams).result.map ThumbnailSet.alert_date) ∧
    (find demoCatalog demoFetchFail demoParams).result = none := by decide

/-- C2 (amended): whenever `_boom_hammer` succeeds (equivalently, the
no-fetch variant returns a mapping), `find` invokes `_fetch_url`
exactly once, on the whole mapping with the 50-second deadline.  The
fetched bytes are discarded, so if the fetch returns, `find`'s return
value equals the no-fetch variant's; but if the fetch raises, the
exception propagates uncaught and `find` returns nothing while the
variant returns the mapping - the call is not inert on the error
path.  When `_boom_hammer` does not succeed, no fetch is issued and
both agree on failure. -/
theorem find_fetch_inert (ee : EECatalog) (rawFetch : RawFetchEnv) (params : Params) :
    (∀ t, findNoFetch ee params = some t →
      (find ee rawFetch params).fetches = [(_fetch_url rawFetch t).1] ∧
      (∀ bytes, rawFetch t = some bytes → (find ee rawFetch params).result = some t) ∧
      (rawFetch t = none → (find ee rawFetch params).result = none)) ∧
    (findNoFetch ee params = none →
      (find ee rawFetch params).result = none ∧ (find ee rawFetch params).fetches = []) := by
  cases hp : _params_prep params with
  | none => simp [find, findNoFetch, hp]
  | some boom =>
    cases hb : _boom_hammer ee boom.lat boom.lon boom.h boom.w boom.date boom.res
        boom.asset boom.fmt with
    | none => simp [find, findNoFetch, hp, hb]
    | some url =>
      constructor
      · intro t ht
        simp only [findNoFetch, hp, hb, Option.some.injEq] at ht
        subst ht
        refine ⟨?_, fun bytes hr => ?_, fun hr => ?_⟩
        · cases hfr : rawFetch url with
          | none => simp [find, hp, hb, _fetch_url, hfr]
          | some bytes => simp [find, hp, hb, _fetch_url, hfr]
        · simp [find, hp, hb, _fetch_url, hr]
        · simp [find, hp, hb, _fetch_url, hr]
      · intro ht
        simp [findNoFetch, hp, hb] at ht

/-- C2 witness: on the demo input one raw fetch is issued on the demo
mapping; under the returning environment `find` agrees with the
no-fetch variant, under the raising one it returns nothing while the
variant returns the mapping; all hypotheses discharged by
computation. -/
theorem find_fetch_inert_witness :
    (find demoCatalog demoFetchOk demoParams).fetches
      = [(_fetch_url demoFetchOk demoThumbs).1] ∧
    (find demoCatalog demoFetchOk demoParams).result = some demoThumbs ∧
    (find demoCatalog demoFetchFail demoParams).result = none :=
  ⟨((find_fetch_inert demoCatalog demoFetchOk demoParams).1 demoThumbs (by decide)).1,
   ((find_fetch_inert demoCatalog demoFetchOk demoParams).1 demoThumbs
      (by decide)).2.1 "" rfl,
   ((find_fetch_inert demoCatalog demoFetchFail demoParams).1 demoThumbs
      (by decide)).2.2 rfl⟩

/-- C2 counterexample to the claim as stated: on the demo input the
execution of `find` does invoke `_fetch_url` (one fetch is issued), and
`find` is not behaviourally identical to the variant with the call
removed: under a raising fetch `find` returns nothing while the
variant returns the mapping. -/
theorem find_invokes_fetch_counterexample :
    (find demoCatalog demoFetchOk demoParams).fetches ≠ [] ∧
    (find demoCatalog demoFetchFail demoParams).fetches.length = 1 ∧
    (find demoCatalog demoFetchFail demoParams).result = none ∧
    findNoFetch demoCatalog demoParams = some demoThumbs := by decide

/-- C9 (amended): `_img_url` composes the visualization exactly as
described - cloud-masked scene, bands B6, B5, B4 as RGB, B8 as
panchromatic, pan-sharpened, visualized with min 0.01, max 0.5, gamma
1.7, thumbnail at scale 30 in EPSG:4326 over `coords`.  End to end,
whenever `find` returns at all (in particular the raw fetch of the
mapping must have returned rather than raised) its value is the
four-entry mapping, every URL of which is such an `_img_url` value -
never a single URL string. -/
theorem img_url_fixed_visualization (image_id : String) (coords : List (ℚ × ℚ)) :
    ((_img_url image_id coords).scale = 30 ∧
      (_img_url image_id coords).crs = "EPSG:4326" ∧
      (_img_url image_id coords).region = coords ∧
      (_img_url image_id coords).image =
        Img.visualize
          (hsvpan
            (Img.select3 (cloudMask (Img.image ("LANDSAT/" ++ image_id))) "B6" "B5" "B4")
            (Img.select1 (cloudMask (Img.image ("LANDSAT/" ++ image_id))) "B8"))
          0.01 0.5 1.7) ∧
    (∀ ee rawFetch params t, (find ee rawFetch params).result = some t →
      ∀ u ∈ [t.alert_date, t.t_minus_one, t.t_minus_two, t.t_minus_three],
        ∃ i c, u = _img_url i c) := by
  have h001 : (mkRat 1 100 : ℚ) = 0.01 := by
    rw [Rat.mkRat_eq_divInt, Rat.divInt_eq_div]; norm_num
  have h05 : (mkRat 1 2 : ℚ) = 0.5 := by
    rw [Rat.mkRat_eq_divInt, Rat.divInt_eq_div]; norm_num
  have h17 : (mkRat 17 10 : ℚ) = 1.7 := by
    rw [Rat.mkRat_eq_divInt, Rat.divInt_eq_div]; norm_num
  refine ⟨⟨rfl, rfl, rfl, ?_⟩, ?_⟩
  · simp only [_img_url, h001, h05, h17]
  · intro ee rawFetch params t hf u hu
    obtain ⟨boom, hp, hb⟩ := find_components ee rawFetch params t hf
    cases hd : boom.date with
    | none => rw [hd] at hb; exact absurd hb (by simp [_boom_hammer])
    | some date =>
      rw [hd] at hb
      obtain ⟨h1, h2, h3, h4⟩ := boom_hammer_components ee boom.lat boom.lon boom.h
        boom.w date boom.res boom.asset boom.fmt t hb
      simp only [List.mem_cons, List.not_mem_nil, or_false] at hu
      rcases hu with rfl | rfl | rfl | rfl
      · obtain ⟨i, _, hi⟩ := Option.map_eq_some'.1 h1
        exact ⟨i, _, hi.symm⟩
      · obtain ⟨i, _, hi⟩ := Option.map_eq_some'.1 h2
        exact ⟨i, _, hi.symm⟩
      · obtain ⟨i, _, hi⟩ := Option.map_eq_some'.1 h3
        exact ⟨i, _, hi.symm⟩
      · obtain ⟨i, _, hi⟩ := Option.map_eq_some'.1 h4
        exact ⟨i, _, hi.symm⟩

/-- C9 witness: the theorem applied at a concrete scene id, and its
`find` conjunct applied to the demo run (under the returning fetch
environment) at the `t_minus_three` entry, all hypotheses discharged by
computation. -/
theorem img_url_fixed_visualization_witness :
    (_img_url "LC81" []).scale = 30 ∧
    (∃ i c, demoThumbs.t_minus_three = _img_url i c) :=
  ⟨(img_url_fixed_visualization "LC81" []).1.1,
   (img_url_fixed_visualization "LC81" []).2 demoCatalog demoFetchOk demoParams demoThumbs
     (by decide) demoThumbs.t_minus_three (by simp)⟩

/-- C9 counterexample to the claim as stated: on the demo input the
end-to-end `find` call does not yield one URL string - when the raw
fetch returns, the return value carries four entries of which at least
two differ, and when the raw fetch raises (the realistic trace for the
dict-as-URL argument) `find` yields no URL at all. -/
theorem find_one_url_counterexample :
    (find demoCatalog demoFetchOk demoParams).result.map ThumbnailSet.t_minus_two
      ≠ (find demoCatalog demoFetchOk demoParams).result.map ThumbnailSet.alert_date ∧
    (find demoCatalog demoFetchOk demoParams).result.map ThumbnailSet.t_minus_three
      ≠ none ∧
    (find demoCatalog demoFetchFail demoParams).result.map ThumbnailSet.alert_date
      = none := by decide
